import Mathlib

/-
Verification of the crisis-detection and alert-escalation subsystem of the
CuraBot repository (MentalHealth_API): the two-tier crisis detector
(lexical keyword scan plus semantic cosine-similarity search over reference
phrase embeddings with sliding-window chunking), the embedding cache loader,
the two alert providers (Twilio SMS, Telegram) and the failover dispatcher.

Modelling conventions:
- Python strings are modelled as lists of characters (abbrev Str).
- Python str.lower is modelled by mapping Char.toLower over the characters;
  the configured keywords and both reason strings are pure ASCII, where the
  two functions agree.
- Python float vectors are modelled over the reals; numpy norm is the square
  root of the sum of squares.
- A Python exception is modelled with Except Unit: an embedding-provider call
  is a function Str to Except Unit (List Real), the Twilio and Telegram
  transports likewise return Except values.  Code that catches an exception
  pattern-matches on the error case.
- re.search with the configured patterns is plain substring search, because
  none of the configured keyword patterns contains a regex metacharacter.
-/

namespace CuraBot

/-- Python strings are modelled as lists of characters. -/
abbrev Str := List Char

/-- Python str.lower, restricted to ASCII case mapping (Char.toLower);
all configured keywords are ASCII. -/
def toLowerStr (s : Str) : Str := s.map Char.toLower

/-- True when the first list is a starting segment of the second. -/
def startsWithL : Str → Str → Bool
  | [], _ => true
  | _ :: _, [] => false
  | a :: as, b :: bs => a = b && startsWithL as bs

/-- True when needle occurs as a contiguous substring of hay; this is
re.search for a pattern with no regex metacharacters. -/
def isSubList (needle : Str) : Str → Bool
  | [] => needle.isEmpty
  | c :: rest => startsWithL needle (c :: rest) || isSubList needle rest

/-- CrisisDetector.crisis_keywords from src/crisis/detector.py (lines 20-31),
in source order.  None of these patterns contains a regex metacharacter. -/
def crisisKeywords : List Str :=
  [("kill myself").toList,
   ("suicid").toList,
   ("end my life").toList,
   ("want to die").toList,
   ("hurt myself").toList,
   ("slit my wrist").toList,
   ("overdose").toList,
   ("no reason to live").toList,
   ("better off dead").toList,
   ("I quit").toList]

/-- CrisisDetector.semantic_phrases from src/crisis/detector.py (lines 34-42). -/
def semanticPhrases : List Str :=
  [("I don\x27t want to live anymore").toList,
   ("The pain is too much to bear, I want out").toList,
   ("I\x27m planning to end it all").toList,
   ("Goodbye everyone, I\x27m done").toList,
   ("There is no hope for me").toList,
   ("I am going to jump off a bridge").toList,
   ("I have a gun and I\x27m going to use it").toList]

/-- The fixed reason returned by the lexical pass of detect. -/
def lexicalReason : Str :=
  ("User is expressing suicidal thoughts or self-harm intent").toList

/-- The fixed reason returned by the semantic pass of detect. -/
def semanticReason : Str :=
  ("User content indicates severe distress or crisis intent").toList

/-- The lexical pass of detect (detector.py lines 136-139): lowercase the
text, then re.search each keyword pattern in order; since the patterns are
metacharacter-free this is substring search of the verbatim pattern inside
the lowercased text.  Note the pattern text itself is NOT lowercased. -/
def lexicalHit (text : Str) : Bool :=
  crisisKeywords.any fun kw => isSubList kw (toLowerStr text)

/-- The reading of the claim that patterns match case-insensitively on both
sides: the lowercased pattern occurs inside the lowercased text. -/
def ciMatchesAny (text : Str) : Bool :=
  crisisKeywords.any fun kw => isSubList (toLowerStr kw) (toLowerStr text)

/-! ## Word splitting and chunking (detector.py _chunk_text, lines 115-127) -/

/-- Accumulator worker for pyWords: walks the characters, building the
current word in reverse in acc, emitting it at each whitespace run. -/
def splitWordsAux : List Char → Str → List Str
  | [], acc => if acc.isEmpty then [] else [acc.reverse]
  | c :: rest, acc =>
    if c.isWhitespace then
      if acc.isEmpty then splitWordsAux rest []
      else acc.reverse :: splitWordsAux rest []
    else splitWordsAux rest (c :: acc)

/-- Python text.split() with no argument: split on whitespace runs,
discarding empty pieces. -/
def pyWords (s : Str) : List Str := splitWordsAux s []

/-- Tail part of a single-space join: prepends a space before each
remaining word. -/
def joinSpaceTail : List Str → Str
  | [] => []
  | w :: ws => ' ' :: (w ++ joinSpaceTail ws)

/-- Python " ".join(words). -/
def joinSpace : List Str → Str
  | [] => []
  | w :: ws => w ++ joinSpaceTail ws

/-- The loop of _chunk_text for the long-text case: for i in
range(0, len(words), step) append the join of words[i : i + window] and
break once i + window reaches len(words).  The fuel argument only serves
Lean totality: when 1 <= step the loop runs at most len(words) iterations,
so chunkText below passes fuel = len(words) and the fuel is never
exhausted on any reachable state. -/
def chunkLoopFuel (ws : List Str) (window step : ℕ) : ℕ → ℕ → List Str
  | 0, _ => []
  | fuel + 1, i =>
    if i < ws.length then
      joinSpace ((ws.drop i).take window) ::
        (if ws.length ≤ i + window then []
         else chunkLoopFuel ws window step fuel (i + step))
    else []

/-- CrisisDetector._chunk_text (detector.py lines 115-127): if the word
count is at most the window the whole original text is the single chunk,
otherwise the overlapping window loop runs. -/
def chunkText (text : Str) (window step : ℕ) : List Str :=
  let ws := pyWords text
  if ws.length ≤ window then [text]
  else chunkLoopFuel ws window step ws.length 0

/-! ## Real-vector arithmetic of the semantic pass (detector.py lines 141-171) -/

/-- Sum of squares of the entries of a vector. -/
noncomputable def sumSq (v : List ℝ) : ℝ := (v.map fun x => x * x).sum

/-- numpy.linalg.norm of a 1-d vector: square root of the sum of squares. -/
noncomputable def pyNorm (v : List ℝ) : ℝ := Real.sqrt (sumSq v)

/-- Sum of pointwise products. -/
noncomputable def dotList (a b : List ℝ) : ℝ := (List.zipWith (· * ·) a b).sum

/-- numpy.dot on two 1-d Python lists: the inner product when the lengths
agree, a ValueError (modelled as the error case) otherwise. -/
noncomputable def pyDot (a b : List ℝ) : Except Unit ℝ :=
  if a.length = b.length then Except.ok (dotList a b) else Except.error ()

/-- Cosine similarity as computed at detector.py line 160:
dot(a,b) / (norm(a) * norm(b)). -/
noncomputable def cosineSim (a b : List ℝ) : ℝ :=
  dotList a b / (pyNorm a * pyNorm b)

/-- The fixed semantic threshold assigned at detector.py line 151. -/
noncomputable def threshold : ℝ := 0.85

open Classical in
/-- The inner loop of the semantic pass (detector.py lines 156-163): for
each (phrase vector, phrase text) pair in order, skip it when the phrase
vector has zero norm, otherwise compute dot(user, phrase) — which raises on
a length mismatch, propagated to the surrounding try — divide by the norm
product, and keep the running (best score, best phrase) pair. -/
noncomputable def innerLoop (u : List ℝ) :
    List (List ℝ × Str) → ℝ × Str → Except Unit (ℝ × Str)
  | [], acc => Except.ok acc
  | (pv, pt) :: rest, acc =>
    if pyNorm pv = 0 then innerLoop u rest acc
    else
      match pyDot u pv with
      | Except.error e => Except.error e
      | Except.ok d =>
        innerLoop u rest
          (if acc.1 < d / (pyNorm u * pyNorm pv) then (d / (pyNorm u * pyNorm pv), pt) else acc)

open Classical in
/-- The outer loop of the semantic pass (detector.py lines 149-163): for
each chunk in order, call the embedding model — an exception propagates to
the surrounding try — skip the chunk when its vector has zero norm, and
otherwise run the inner comparison loop, threading the accumulator. -/
noncomputable def outerLoop (m : Str → Except Unit (List ℝ)) (pairs : List (List ℝ × Str)) :
    List Str → ℝ × Str → Except Unit (ℝ × Str)
  | [], acc => Except.ok acc
  | c :: rest, acc =>
    match m c with
    | Except.error e => Except.error e
    | Except.ok u =>
      if pyNorm u = 0 then outerLoop m pairs rest acc
      else
        match innerLoop u pairs acc with
        | Except.error e => Except.error e
        | Except.ok acc2 => outerLoop m pairs rest acc2

open Classical in
/-- CrisisDetector.detect (detector.py lines 129-174).  The model argument
is the optional embeddings model (None when absent); phraseEmbeddings is
self.phrase_embeddings.  The regex pass runs first; the semantic pass runs
only when a model is present and the phrase-embedding list is non-empty
(the Python truthiness test), chunks the text with the default window 15
and step 10, zips the phrase embeddings with the phrase texts, and scans;
any exception inside the pass is caught and the function falls through to
(False, ""). -/
noncomputable def detect (m : Option (Str → Except Unit (List ℝ)))
    (phraseEmbeddings : List (List ℝ)) (text : Str) : Bool × Str :=
  if lexicalHit text then (true, lexicalReason)
  else
    match m with
    | none => (false, [])
    | some f =>
      if phraseEmbeddings.isEmpty then (false, [])
      else
        match outerLoop f (phraseEmbeddings.zip semanticPhrases)
            (chunkText text 15 10) (0, []) with
        | Except.error _ => (false, [])
        | Except.ok acc => if threshold < acc.1 then (true, semanticReason) else (false, [])

/-! ## The semantic scan as the specification words it

The specification asserts that a failure computing one chunk or one
comparison is skipped and the scan of the remaining chunks and phrases
still runs to completion.  The two definitions below follow those words
(skip on failure, continue), to be compared against the source-derived
outerLoop/innerLoop above which propagate the failure to the pass-level
handler instead. -/

open Classical in
/-- Spec-worded inner loop: a failed comparison (length-mismatched dot) is
skipped and the remaining phrase comparisons still run. -/
noncomputable def specInnerSkip (u : List ℝ) :
    List (List ℝ × Str) → ℝ × Str → ℝ × Str
  | [], acc => acc
  | (pv, pt) :: rest, acc =>
    if pyNorm pv = 0 then specInnerSkip u rest acc
    else
      match pyDot u pv with
      | Except.error _ => specInnerSkip u rest acc
      | Except.ok d =>
        specInnerSkip u rest
          (if acc.1 < d / (pyNorm u * pyNorm pv) then (d / (pyNorm u * pyNorm pv), pt) else acc)

open Classical in
/-- Spec-worded outer loop: a failed chunk embedding is skipped and the
remaining chunks are still scanned. -/
noncomputable def specOuterSkip (m : Str → Except Unit (List ℝ)) (pairs : List (List ℝ × Str)) :
    List Str → ℝ × Str → ℝ × Str
  | [], acc => acc
  | c :: rest, acc =>
    match m c with
    | Except.error _ => specOuterSkip m pairs rest acc
    | Except.ok u =>
      if pyNorm u = 0 then specOuterSkip m pairs rest acc
      else specOuterSkip m pairs rest (specInnerSkip u pairs acc)

/-! ## Embedding cache load (detector.py _load_from_cache, lines 69-88) -/

/-- The parsed JSON cache record: each field is present or absent (an
ill-typed or missing key behaves like its absent case: a missing or
non-list phrases value compares unequal to the current phrase list, and a
missing embeddings value raises KeyError which the handler catches). -/
structure CacheData where
  phrases? : Option (List Str)
  embeddings? : Option (List (List ℝ))

/-- CrisisDetector._load_from_cache.  The file argument models the disk
state: none when the cache file does not exist, some none when it exists
but json.load raises (unreadable or corrupt), some (some d) when it parses
to record d.  The current argument is the reference phrase list compared
against the stored one.  The result is the adopted embedding list, or none
when the function returns False without adopting anything. -/
def loadFromCache (file : Option (Option CacheData)) (current : List Str) :
    Option (List (List ℝ)) :=
  match file with
  | none => none
  | some none => none
  | some (some d) =>
    if d.phrases? = some current then
      match d.embeddings? with
      | some e => some e
      | none => none
    else none

/-! ## Alert providers (src/alerts/sms.py, src/alerts/telegram.py) -/

/-- Python truthiness of an optional environment string: None and the empty
string are falsy. -/
def truthyOpt (o : Option Str) : Bool :=
  match o with
  | none => false
  | some s => !s.isEmpty

/-- The environment and transport of TwilioProvider: the three credential
variables read at construction, and the outcome of
client.messages.create(to, body) — ok when the message object is returned,
error when any exception is raised inside the try block. -/
structure TwilioEnv where
  accountSid : Option Str
  authToken : Option Str
  messagingServiceSid : Option Str
  transport : Str → Option Str → Except Unit Unit

/-- The payload dictionary handed to TwilioProvider.send_alert: the values
of data.get("phone_number") and data.get("message"). -/
structure SmsData where
  phone? : Option Str
  message? : Option Str

/-- The destination normalization at sms.py line 35: prepend +91 when the
number does not start with +. -/
def normalizePhone (p : Str) : Str :=
  if startsWithL (("+").toList) p then p else ("+91").toList ++ p

/-- TwilioProvider.send_alert (sms.py lines 16-43): missing or empty
credentials return False before any network call; a missing phone number
raises AttributeError on startswith inside the try and is caught; any
transport exception is caught; only a completed create call returns True. -/
def twilioSendAlert (env : TwilioEnv) (data : SmsData) : Bool :=
  if !(truthyOpt env.accountSid && truthyOpt env.authToken) then false
  else
    match data.phone? with
    | none => false
    | some p =>
      match env.transport (normalizePhone p) data.message? with
      | Except.ok _ => true
      | Except.error _ => false

/-- The environment and transport of TelegramProvider: the two credential
variables read at construction, and the outcome of requests.post on the
message text — ok with the HTTP status code, or error for a transport
exception. -/
structure TelegramEnv where
  botToken : Option Str
  chatId : Option Str
  post : Option Str → Except Unit ℕ

/-- The payload dictionary handed to TelegramProvider.send_alert: the value
of data.get("message"). -/
structure TgData where
  message? : Option Str

/-- TelegramProvider.send_alert (telegram.py lines 14-37): missing or empty
credentials return False; only an HTTP 200 response returns True; any other
status or a transport exception returns False. -/
def telegramSendAlert (env : TelegramEnv) (data : TgData) : Bool :=
  if !(truthyOpt env.botToken && truthyOpt env.chatId) then false
  else
    match env.post data.message? with
    | Except.ok status => if status = 200 then true else false
    | Except.error _ => false

/-! ## Alert dispatcher (src/alerts/dispatcher.py) -/

/-- The process environment of AlertDispatcher: the two provider
environments and HELPLINE_PHONE_NUMBER. -/
structure DispatchEnv where
  twilio : TwilioEnv
  telegram : TelegramEnv
  helplineNumber : Option Str

/-- Observable effect trace of one trigger_alert call: which channels were
invoked and what each reported.  The Python function returns nothing; the
channel invocations are its observable behaviour. -/
structure AlertTrace where
  smsAttempted : Bool
  smsSuccess : Bool
  tgAttempted : Bool
  tgSuccess : Bool
deriving DecidableEq

/-- The single-line SMS message built at dispatcher.py line 22. -/
def smsMessageFor (userName reason location shortMessage : Str) : Str :=
  ("CRISIS ALERT: User ").toList ++ userName ++ (" at ").toList ++ location ++
  (". Reason: ").toList ++ reason ++ (". Msg: ").toList ++ shortMessage

/-- The multi-line Telegram message built at dispatcher.py lines 24-31. -/
def telegramMessageFor (userName reason location shortMessage : Str) : Str :=
  ("🚨 *CRISIS DETECTED* 🚨\n\n👤 *User:* ").toList ++ userName ++
  ("\n📍 *Location:* ").toList ++ location ++
  ("\n⚠️ *Reason:* ").toList ++ reason ++
  ("\n💬 *Message:* ").toList ++ shortMessage ++
  ("\n\nPlease take immediate action.").toList

/-- AlertDispatcher.trigger_alert (dispatcher.py lines 14-57): build both
messages; if the helpline number is truthy invoke the SMS provider,
otherwise record an immediate failure without attempting it; invoke the
Telegram provider exactly when the SMS outcome is failure. -/
def triggerAlert (env : DispatchEnv) (userName reason location shortMessage : Str) :
    AlertTrace :=
  let smsMessage := smsMessageFor userName reason location shortMessage
  let tgMessage := telegramMessageFor userName reason location shortMessage
  let smsData : SmsData := ⟨env.helplineNumber, some smsMessage⟩
  let smsAttempted := truthyOpt env.helplineNumber
  let smsSuccess := if smsAttempted then twilioSendAlert env.twilio smsData else false
  if smsSuccess then ⟨smsAttempted, true, false, false⟩
  else ⟨smsAttempted, false, true, telegramSendAlert env.telegram ⟨some tgMessage⟩⟩

/-! ## Helper lemmas: word splitting -/

lemma splitWordsAux_sound (s : List Char) :
    ∀ (acc : Str), (∀ c ∈ acc, c.isWhitespace = false) →
    ∀ w ∈ splitWordsAux s acc, w ≠ [] ∧ ∀ c ∈ w, c.isWhitespace = false := by
  induction s with
  | nil =>
    intro acc hacc w hw
    rw [splitWordsAux] at hw
    by_cases h : acc.isEmpty
    · rw [if_pos h] at hw
      exact absurd hw (List.not_mem_nil w)
    · rw [if_neg h] at hw
      rcases List.mem_singleton.mp hw with rfl
      refine ⟨?_, fun c hc => hacc c (List.mem_reverse.mp hc)⟩
      simp only [ne_eq, List.reverse_eq_nil_iff]
      intro hnil
      rw [hnil] at h
      exact h rfl
  | cons c rest ih =>
    intro acc hacc w hw
    rw [splitWordsAux] at hw
    by_cases hsp : c.isWhitespace
    · rw [if_pos hsp] at hw
      by_cases hacc0 : acc.isEmpty
      · rw [if_pos hacc0] at hw
        exact ih [] (by intro x hx; exact absurd hx (List.not_mem_nil x)) w hw
      · rw [if_neg hacc0] at hw
        rcases List.mem_cons.mp hw with rfl | h2
        · refine ⟨?_, fun ch hch => hacc ch (List.mem_reverse.mp hch)⟩
          simp only [ne_eq, List.reverse_eq_nil_iff]
          intro hnil
          rw [hnil] at hacc0
          exact hacc0 rfl
        · exact ih [] (by intro x hx; exact absurd hx (List.not_mem_nil x)) w h2
    · rw [if_neg hsp] at hw
      refine ih (c :: acc) ?_ w hw
      intro ch hch
      rcases List.mem_cons.mp hch with rfl | h2
      · exact Bool.eq_false_iff.mpr hsp
      · exact hacc ch h2

lemma pyWords_sound (s : Str) :
    ∀ w ∈ pyWords s, w ≠ [] ∧ ∀ c ∈ w, c.isWhitespace = false :=
  splitWordsAux_sound s [] (by intro x hx; exact absurd hx (List.not_mem_nil x))

lemma splitWordsAux_chars (w : List Char) :
    ∀ (t : List Char) (acc : Str), (∀ c ∈ w, c.isWhitespace = false) →
    splitWordsAux (w ++ t) acc = splitWordsAux t (w.reverse ++ acc) := by
  induction w with
  | nil => intro t acc _; simp
  | cons c wtl ih =>
    intro t acc h
    have hc : c.isWhitespace = false := h c (List.mem_cons_self c wtl)
    rw [List.cons_append, splitWordsAux, if_neg (by simp [hc])]
    rw [ih t (c :: acc) (fun x hx => h x (List.mem_cons_of_mem c hx))]
    congr 1
    simp

lemma pyWords_joinSpace (ws : List Str)
    (h : ∀ w ∈ ws, w ≠ [] ∧ ∀ c ∈ w, c.isWhitespace = false) :
    pyWords (joinSpace ws) = ws := by
  induction ws with
  | nil => rfl
  | cons w wsl ih =>
    obtain ⟨hw, hwc⟩ := h w (List.mem_cons_self w wsl)
    have hrevne : (w.reverse ++ ([] : Str)).isEmpty = false := by
      rw [List.append_nil]
      cases hwrev : w.reverse with
      | nil => exact absurd (List.reverse_eq_nil_iff.mp hwrev) hw
      | cons a l => rfl
    cases wsl with
    | nil =>
      show splitWordsAux (joinSpace [w]) [] = [w]
      have hjw : joinSpace [w] = w ++ ([] : Str) := rfl
      rw [hjw, splitWordsAux_chars w [] [] hwc, splitWordsAux, if_neg (by rw [hrevne]; simp)]
      simp
    | cons w2 wss =>
      have hjoin : joinSpace (w :: w2 :: wss) = w ++ (' ' :: joinSpace (w2 :: wss)) := rfl
      show splitWordsAux (joinSpace (w :: w2 :: wss)) [] = w :: w2 :: wss
      rw [hjoin, splitWordsAux_chars w _ [] hwc, splitWordsAux,
        if_pos (by decide : (' ').isWhitespace = true), if_neg (by rw [hrevne]; simp)]
      have hih := ih (fun x hx => h x (List.mem_cons_of_mem _ hx))
      rw [pyWords] at hih
      rw [hih]
      simp

/-! ## Helper lemmas: chunk coverage -/

lemma get_mem_slice (ws : List Str) (i j window : ℕ) (h : j < ws.length)
    (hij : i ≤ j) (hjw : j < i + window) :
    ws.get ⟨j, h⟩ ∈ (ws.drop i).take window := by
  have ht : j - i < ((ws.drop i).take window).length := by
    rw [List.length_take, List.length_drop]; omega
  have hd : j - i < (ws.drop i).length := by rw [List.length_drop]; omega
  have hsum : i + (j - i) < ws.length := by omega
  have hget : ws.get ⟨j, h⟩ = ws[j] := rfl
  have e1 : ((ws.drop i).take window)[j - i] = (ws.drop i)[j - i] :=
    List.getElem_take (ws.drop i)
  have e2 : (ws.drop i)[j - i] = ws[i + (j - i)] := List.getElem_drop ws
  have e3 : ws[i + (j - i)] = ws[j] := by
    congr 1
    omega
  have e4 : ((ws.drop i).take window)[j - i] = ws[j] := (e1.trans e2).trans e3
  rw [hget, ← e4]
  exact List.getElem_mem ht

lemma chunkLoop_coverage (ws : List Str) (window step : ℕ)
    (hstep : 1 ≤ step) (hsw : step ≤ window)
    (hw : ∀ w ∈ ws, w ≠ [] ∧ ∀ c ∈ w, c.isWhitespace = false) :
    ∀ (fuel i j : ℕ) (h : j < ws.length), i ≤ j → ws.length - i ≤ fuel →
    ∃ c ∈ chunkLoopFuel ws window step fuel i, ws.get ⟨j, h⟩ ∈ pyWords c := by
  intro fuel
  induction fuel with
  | zero => intro i j h hij hfuel; omega
  | succ fuel ih =>
    intro i j h hij hfuel
    have hilen : i < ws.length := lt_of_le_of_lt hij h
    rw [chunkLoopFuel, if_pos hilen]
    have hslice : ∀ w ∈ (ws.drop i).take window, w ≠ [] ∧ ∀ c ∈ w, c.isWhitespace = false :=
      fun w hmem => hw w (List.mem_of_mem_drop (List.mem_of_mem_take hmem))
    by_cases hj : j < i + window
    · refine ⟨joinSpace ((ws.drop i).take window), List.mem_cons_self _ _, ?_⟩
      rw [pyWords_joinSpace _ hslice]
      exact get_mem_slice ws i j window h hij hj
    · have hbreak : ¬ ws.length ≤ i + window := by omega
      rw [if_neg hbreak]
      obtain ⟨c, hc, hmem⟩ := ih (i + step) j h (by omega) (by omega)
      exact ⟨c, List.mem_cons_of_mem _ hc, hmem⟩

/-! ## Helper lemmas: real-vector arithmetic -/

lemma sumSq_nonneg (v : List ℝ) : 0 ≤ sumSq v := by
  induction v with
  | nil => simp [sumSq]
  | cons x xs ih =>
    simp only [sumSq, List.map_cons, List.sum_cons] at *
    nlinarith [mul_self_nonneg x]

lemma sumSq_cons (x : ℝ) (xs : List ℝ) : sumSq (x :: xs) = x * x + sumSq xs := by
  simp [sumSq]

lemma dotList_cons (x y : ℝ) (xs ys : List ℝ) :
    dotList (x :: xs) (y :: ys) = x * y + dotList xs ys := by
  simp [dotList]

lemma cs_step (x y d A B : ℝ) (hA : 0 ≤ A) (hB : 0 ≤ B) (hd : d ^ 2 ≤ A * B) :
    (x * y + d) ^ 2 ≤ (x * x + A) * (y * y + B) := by
  rcases eq_or_lt_of_le hB with hB0 | hBpos
  · have hd0 : d = 0 := by
      have : d ^ 2 ≤ 0 := by nlinarith
      nlinarith [sq_nonneg d]
    subst hd0
    nlinarith [mul_nonneg hA (mul_self_nonneg y)]
  · have key : B * ((x * x + A) * (y * y + B) - (x * y + d) ^ 2)
        = (B * x - d * y) ^ 2 + (A * B - d ^ 2) * (y * y + B) := by ring
    have h1 : 0 ≤ (B * x - d * y) ^ 2 := sq_nonneg _
    have h2 : 0 ≤ (A * B - d ^ 2) * (y * y + B) :=
      mul_nonneg (sub_nonneg.mpr hd) (add_nonneg (mul_self_nonneg y) hB)
    nlinarith [key, h1, h2, hBpos]

lemma cs_list (a b : List ℝ) : (dotList a b) ^ 2 ≤ sumSq a * sumSq b := by
  induction a generalizing b with
  | nil => simp [dotList, sumSq]
  | cons x xs ih =>
    cases b with
    | nil =>
      have hz : dotList (x :: xs) [] = 0 := by simp [dotList]
      rw [hz]
      simp only [sumSq, List.map_nil, List.sum_nil, mul_zero]
      norm_num
    | cons y ys =>
      rw [dotList_cons, sumSq_cons, sumSq_cons]
      exact cs_step x y _ _ _ (sumSq_nonneg xs) (sumSq_nonneg ys) (ih ys)

lemma pyNorm_nonneg (v : List ℝ) : 0 ≤ pyNorm v := Real.sqrt_nonneg _

lemma cosine_bound (a b : List ℝ) (ha : pyNorm a ≠ 0) (hb : pyNorm b ≠ 0) :
    -1 ≤ cosineSim a b ∧ cosineSim a b ≤ 1 := by
  have hpa : 0 < pyNorm a := lt_of_le_of_ne (pyNorm_nonneg a) (Ne.symm ha)
  have hpb : 0 < pyNorm b := lt_of_le_of_ne (pyNorm_nonneg b) (Ne.symm hb)
  have hpos : 0 < pyNorm a * pyNorm b := mul_pos hpa hpb
  have habs : |dotList a b| ≤ pyNorm a * pyNorm b := by
    have h1 : (dotList a b) ^ 2 ≤ sumSq a * sumSq b := cs_list a b
    calc |dotList a b| = Real.sqrt ((dotList a b) ^ 2) := (Real.sqrt_sq_eq_abs _).symm
      _ ≤ Real.sqrt (sumSq a * sumSq b) := Real.sqrt_le_sqrt h1
      _ = Real.sqrt (sumSq a) * Real.sqrt (sumSq b) := Real.sqrt_mul (sumSq_nonneg a) _
      _ = pyNorm a * pyNorm b := rfl
  obtain ⟨hlo, hhi⟩ := abs_le.mp habs
  constructor
  · rw [cosineSim, le_div_iff₀ hpos]
    linarith
  · rw [cosineSim, div_le_one hpos]
    exact hhi

lemma sumSq_one : sumSq [(1 : ℝ)] = 1 := by simp [sumSq]

lemma pyNorm_one : pyNorm [(1 : ℝ)] = 1 := by rw [pyNorm, sumSq_one, Real.sqrt_one]

lemma pyNorm_zeroVec : pyNorm [(0 : ℝ)] = 0 := by simp [pyNorm, sumSq]

/-! ## Helper lemmas: scan structure and detect case analysis -/

lemma outerLoop_error (m : Str → Except Unit (List ℝ)) (pairs : List (List ℝ × Str))
    (c : Str) (rest : List Str) (acc : ℝ × Str) (h : m c = Except.error ()) :
    outerLoop m pairs (c :: rest) acc = Except.error () := by
  rw [outerLoop, h]

lemma outerLoop_skip (m : Str → Except Unit (List ℝ)) (pairs : List (List ℝ × Str))
    (c : Str) (rest : List Str) (acc : ℝ × Str) (u : List ℝ)
    (h : m c = Except.ok u) (hu : pyNorm u = 0) :
    outerLoop m pairs (c :: rest) acc = outerLoop m pairs rest acc := by
  rw [outerLoop, h]
  simp only [if_pos hu]

lemma innerLoop_skip (u : List ℝ) (pv : List ℝ) (pt : Str)
    (rest : List (List ℝ × Str)) (acc : ℝ × Str) (h : pyNorm pv = 0) :
    innerLoop u ((pv, pt) :: rest) acc = innerLoop u rest acc := by
  rw [innerLoop, if_pos h]

lemma detect_of_scan_error (m : Str → Except Unit (List ℝ)) (pes : List (List ℝ))
    (text : Str) (hlex : lexicalHit text = false) (hpes : pes.isEmpty = false)
    (hscan : outerLoop m (pes.zip semanticPhrases) (chunkText text 15 10) (0, []) =
      Except.error ()) :
    detect (some m) pes text = (false, []) := by
  simp only [detect.eq_def, hlex, Bool.false_eq_true, if_false, hpes, hscan]

lemma detect_cases (m : Option (Str → Except Unit (List ℝ))) (pes : List (List ℝ))
    (text : Str) :
    detect m pes text = (true, lexicalReason) ∨ detect m pes text = (true, semanticReason) ∨
      detect m pes text = (false, []) := by
  unfold detect
  split
  · exact Or.inl rfl
  · split
    · exact Or.inr (Or.inr rfl)
    · split
      · exact Or.inr (Or.inr rfl)
      · split
        · exact Or.inr (Or.inr rfl)
        · split
          · exact Or.inr (Or.inl rfl)
          · exact Or.inr (Or.inr rfl)

/-! ## Concrete models used by counterexamples and witnesses -/

/-- A 21-word text whose words are all the letter a: long enough to be cut
into two overlapping chunks by the default window 15 / step 10, and free of
every lexical keyword. -/
def textC2 : Str := joinSpace (List.replicate 21 (("a").toList))

/-- The first chunk of textC2 under window 15 / step 10. -/
def badChunk : Str := joinSpace (List.replicate 15 (("a").toList))

/-- The second chunk of textC2 under window 15 / step 10. -/
def goodChunk : Str := joinSpace (List.replicate 11 (("a").toList))

/-- An embedding model that raises exactly on the first chunk of textC2 and
returns the unit vector for every other input. -/
def mC2 (c : Str) : Except Unit (List ℝ) :=
  if c = badChunk then Except.error () else Except.ok [1]

/-- An embedding model that always returns the zero vector. -/
def mZero : Str → Except Unit (List ℝ) := fun _ => Except.ok [0]

/-! ## Claim theorems -/

/-- C1: the claim asserts that any text containing a configured lexical
pattern under case-insensitive comparison makes detect return is_crisis
true with the lexical reason, for any semantic configuration.  The code
lowercases the text but matches the patterns verbatim, and the configured
pattern list contains the pattern I quit with an uppercase letter, so that
pattern can never match any lowercased text: the input I quit contains the
pattern I quit case-insensitively, yet detect (here with no embedding
model, so the semantic pass is skipped) returns (false, empty) instead of
(true, lexical reason).  The configured keyword is dead code, contradicting
its evident purpose: this is a bug in the code. -/
theorem C1_dead_uppercase_keyword :
    ciMatchesAny (("I quit").toList) = true ∧
    lexicalHit (("I quit").toList) = false ∧
    detect none [] (("I quit").toList) = (false, []) :=
  ⟨by decide, by decide, rfl⟩

/-- C2 counterexample: the claim asserts that a failure embedding one chunk
is skipped and the scan of the remaining chunks still runs, detect
returning false from the semantic pass only when the completed scan finds
no score above the threshold.  With the model mC2 that raises on the first
chunk of textC2 and returns the unit vector elsewhere, and the single unit
reference vector, the scan in the claimed skip semantics (specOuterSkip,
written from the specification words) reaches the second chunk and finds
score 1 above the 0.85 threshold — yet detect returns (false, empty),
because the exception on the first chunk aborts the whole pass. -/
theorem C2_abort_counterexample :
    detect (some mC2) [[1]] textC2 = (false, []) ∧
    threshold <
      (specOuterSkip mC2 ([[(1 : ℝ)]].zip semanticPhrases)
        (chunkText textC2 15 10) (0, [])).1 := by
  constructor
  · rfl
  · have hchunks : chunkText textC2 15 10 = [badChunk, goodChunk] := by decide
    have hzip : [[(1 : ℝ)]].zip semanticPhrases =
        [([1], ("I don\x27t want to live anymore").toList)] := rfl
    have hbad : mC2 badChunk = Except.error () := by simp [mC2]
    have hgood : mC2 goodChunk = Except.ok [1] := by rw [mC2, if_neg (by decide)]
    rw [hchunks, hzip]
    simp only [specOuterSkip, specInnerSkip, hbad, hgood, pyNorm_one, pyDot, dotList]
    norm_num [threshold]

/-- C2 amended: in the semantic pass a zero-norm chunk vector or reference
vector is skipped per-chunk/per-comparison and the scan continues, but an
exception while embedding a chunk (or a malformed-vector comparison, which
surfaces as an error of pyDot propagated by innerLoop) aborts the scan of
all remaining chunks; the failure is caught at the whole-pass level and
detect then returns is_crisis false with empty reason from this pass. -/
theorem C2_failure_aborts_scan :
    (∀ (m : Str → Except Unit (List ℝ)) (pairs : List (List ℝ × Str)) (c : Str)
      (rest : List Str) (acc : ℝ × Str), m c = Except.error () →
      outerLoop m pairs (c :: rest) acc = Except.error ()) ∧
    (∀ (m : Str → Except Unit (List ℝ)) (pes : List (List ℝ)) (text : Str),
      lexicalHit text = false → pes.isEmpty = false →
      outerLoop m (pes.zip semanticPhrases) (chunkText text 15 10) (0, []) =
        Except.error () →
      detect (some m) pes text = (false, [])) ∧
    (∀ (m : Str → Except Unit (List ℝ)) (pairs : List (List ℝ × Str)) (c : Str)
      (rest : List Str) (acc : ℝ × Str) (u : List ℝ),
      m c = Except.ok u → pyNorm u = 0 →
      outerLoop m pairs (c :: rest) acc = outerLoop m pairs rest acc) ∧
    (∀ (u pv : List ℝ) (pt : Str) (rest : List (List ℝ × Str)) (acc : ℝ × Str),
      pyNorm pv = 0 → innerLoop u ((pv, pt) :: rest) acc = innerLoop u rest acc) :=
  ⟨outerLoop_error, detect_of_scan_error, outerLoop_skip, innerLoop_skip⟩

/-- C2 witness: the amended behaviour at concrete inputs — the erroring
model aborts the scan and detect returns (false, empty) on textC2, and the
zero-norm skips step over the offending entry. -/
theorem C2_failure_aborts_scan_witness :
    outerLoop mC2 [] [badChunk] (0, []) = Except.error () ∧
    detect (some mC2) [[1]] textC2 = (false, []) ∧
    outerLoop mZero [] [("x").toList] (0, []) = outerLoop mZero [] [] (0, []) ∧
    innerLoop [] [([(0 : ℝ)], [])] (0, []) = innerLoop [] [] (0, []) :=
  ⟨C2_failure_aborts_scan.1 mC2 [] badChunk [] (0, []) rfl,
   C2_failure_aborts_scan.2.1 mC2 [[1]] textC2 (by decide) (by decide) rfl,
   C2_failure_aborts_scan.2.2.1 mZero [] (("x").toList) [] (0, []) [0] rfl pyNorm_zeroVec,
   C2_failure_aborts_scan.2.2.2 [] [(0 : ℝ)] [] [] (0, []) pyNorm_zeroVec⟩

/-- C3: in every trigger_alert call the Telegram backup is invoked exactly
when the SMS outcome was not success; an unset or empty helpline number
means the SMS provider is never invoked and the outcome is an immediate
failure, so the backup is invoked; and an SMS success means the backup is
never invoked. -/
theorem C3_failover_priority :
    ∀ (env : DispatchEnv) (u r l s : Str),
      ((triggerAlert env u r l s).tgAttempted = !(triggerAlert env u r l s).smsSuccess) ∧
      (truthyOpt env.helplineNumber = false →
        (triggerAlert env u r l s).smsAttempted = false ∧
        (triggerAlert env u r l s).smsSuccess = false ∧
        (triggerAlert env u r l s).tgAttempted = true) ∧
      ((triggerAlert env u r l s).smsSuccess = true →
        (triggerAlert env u r l s).tgAttempted = false) := by
  intro env u r l s
  simp only [triggerAlert]
  by_cases hh : truthyOpt env.helplineNumber
  · simp only [hh, if_true]
    by_cases hs : twilioSendAlert env.twilio
        ⟨env.helplineNumber, some (smsMessageFor u r l s)⟩
    · simp [hs]
    · simp [hs]
  · simp only [Bool.not_eq_true] at hh
    simp [hh]

/-- C3 witness: with an unset helpline number the SMS channel is not
attempted and the Telegram channel is, by the theorem applied at a concrete
environment whose transports always fail. -/
theorem C3_failover_priority_witness :
    (triggerAlert
        ⟨⟨none, none, none, fun _ _ => Except.error ()⟩,
         ⟨none, none, fun _ => Except.error ()⟩, none⟩
        [] [] [] []).smsAttempted = false ∧
    (triggerAlert
        ⟨⟨none, none, none, fun _ _ => Except.error ()⟩,
         ⟨none, none, fun _ => Except.error ()⟩, none⟩
        [] [] [] []).tgAttempted = true := by
  have h := C3_failover_priority
    ⟨⟨none, none, none, fun _ _ => Except.error ()⟩,
     ⟨none, none, fun _ => Except.error ()⟩, none⟩ [] [] [] []
  exact ⟨(h.2.1 rfl).1, (h.2.1 rfl).2.2⟩

/-- C4: the detector and both providers are total and exception-free as
modelled: missing or empty credentials make each provider return false
before any network call, a transport error or missing phone number makes
the Twilio provider return false, a transport error or a non-200 status
makes the Telegram provider return false, detect always returns one of its
three literal result pairs for every model behaviour, and trigger_alert is
defined for every environment with its SMS attempt determined by the
helpline configuration. -/
theorem C4_no_exception_escapes :
    (∀ (env : TwilioEnv) (data : SmsData),
      (truthyOpt env.accountSid && truthyOpt env.authToken) = false →
      twilioSendAlert env data = false) ∧
    (∀ (env : TwilioEnv) (data : SmsData), data.phone? = none →
      twilioSendAlert env data = false) ∧
    (∀ (env : TwilioEnv) (data : SmsData) (p : Str), data.phone? = some p →
      env.transport (normalizePhone p) data.message? = Except.error () →
      twilioSendAlert env data = false) ∧
    (∀ (env : TelegramEnv) (data : TgData),
      (truthyOpt env.botToken && truthyOpt env.chatId) = false →
      telegramSendAlert env data = false) ∧
    (∀ (env : TelegramEnv) (data : TgData),
      env.post data.message? = Except.error () → telegramSendAlert env data = false) ∧
    (∀ (env : TelegramEnv) (data : TgData) (n : ℕ),
      env.post data.message? = Except.ok n → n ≠ 200 →
      telegramSendAlert env data = false) ∧
    (∀ (m : Option (Str → Except Unit (List ℝ))) (pes : List (List ℝ)) (text : Str),
      detect m pes text = (true, lexicalReason) ∨
      detect m pes text = (true, semanticReason) ∨ detect m pes text = (false, [])) ∧
    (∀ (env : DispatchEnv) (a b c d : Str),
      (triggerAlert env a b c d).smsAttempted = truthyOpt env.helplineNumber) := by
  refine ⟨?_, ?_, ?_, ?_, ?_, ?_, detect_cases, ?_⟩
  · intro env data h
    simp [twilioSendAlert, h]
  · intro env data h
    by_cases hc : (truthyOpt env.accountSid && truthyOpt env.authToken) = true
    · simp [twilioSendAlert, hc, h]
    · simp only [Bool.not_eq_true] at hc
      simp [twilioSendAlert, hc]
  · intro env data p hp ht
    simp only [twilioSendAlert, hp, ht, ite_self]
  · intro env data h
    simp [telegramSendAlert, h]
  · intro env data h
    simp only [telegramSendAlert, h, ite_self]
  · intro env data n hp hn
    unfold telegramSendAlert
    by_cases hc : (!(truthyOpt env.botToken && truthyOpt env.chatId)) = true
    · rw [if_pos hc]
    · rw [if_neg hc, hp]
      show (if n = 200 then true else false) = false
      rw [if_neg hn]
  · intro env a b c d
    simp only [triggerAlert]
    split <;> split <;> rfl

/-- C4 witness: the provider failure cases at concrete environments — all
credentials missing, a phone number absent from the payload, an erroring
transport, and a 500 status — all return false, and detect at a concrete
input falls in its result range. -/
theorem C4_no_exception_escapes_witness :
    twilioSendAlert ⟨none, none, none, fun _ _ => Except.ok ()⟩ ⟨some [], some []⟩ = false ∧
    twilioSendAlert ⟨some (("sid").toList), some (("tok").toList), none,
      fun _ _ => Except.ok ()⟩ ⟨none, some []⟩ = false ∧
    twilioSendAlert ⟨some (("sid").toList), some (("tok").toList), none,
      fun _ _ => Except.error ()⟩ ⟨some (("9").toList), some []⟩ = false ∧
    telegramSendAlert ⟨none, none, fun _ => Except.ok 200⟩ ⟨some []⟩ = false ∧
    telegramSendAlert ⟨some (("t").toList), some (("c").toList),
      fun _ => Except.error ()⟩ ⟨some []⟩ = false ∧
    telegramSendAlert ⟨some (("t").toList), some (("c").toList),
      fun _ => Except.ok 500⟩ ⟨some []⟩ = false ∧
    (detect none [] [] = (true, lexicalReason) ∨
      detect none [] [] = (true, semanticReason) ∨ detect none [] [] = (false, [])) ∧
    (triggerAlert ⟨⟨none, none, none, fun _ _ => Except.ok ()⟩,
      ⟨none, none, fun _ => Except.ok 200⟩, none⟩ [] [] [] []).smsAttempted =
      truthyOpt none :=
  ⟨C4_no_exception_escapes.1 _ _ rfl,
   C4_no_exception_escapes.2.1 _ _ rfl,
   C4_no_exception_escapes.2.2.1 _ _ (("9").toList) rfl rfl,
   C4_no_exception_escapes.2.2.2.1 _ _ rfl,
   C4_no_exception_escapes.2.2.2.2.1 _ _ rfl,
   C4_no_exception_escapes.2.2.2.2.2.1 _ _ 500 rfl (by decide),
   C4_no_exception_escapes.2.2.2.2.2.2.1 none [] [],
   C4_no_exception_escapes.2.2.2.2.2.2.2 _ [] [] [] []⟩

/-- C5: the cache load adopts a stored embedding list exactly when the file
exists, parses, its stored phrase list is exactly (same elements, same
order) the current reference phrase list, and the embeddings entry is
present; in every other situation — no file, unreadable or unparseable
file, or any difference in phrase order or content — nothing is loaded. -/
theorem C5_cache_exact_match :
    ∀ (file : Option (Option CacheData)) (current : List Str) (e : List (List ℝ)),
      loadFromCache file current = some e ↔
        ∃ d, file = some (some d) ∧ d.phrases? = some current ∧ d.embeddings? = some e := by
  intro file current e
  constructor
  · intro h
    match file with
    | none => simp [loadFromCache] at h
    | some none => simp [loadFromCache] at h
    | some (some d) =>
      refine ⟨d, rfl, ?_⟩
      by_cases hp : d.phrases? = some current
      · rw [loadFromCache, if_pos hp] at h
        refine ⟨hp, ?_⟩
        match he : d.embeddings? with
        | none => rw [he] at h; simp at h
        | some e2 => rw [he] at h; exact h
      · rw [loadFromCache, if_neg hp] at h
        exact absurd h (by simp)
  · rintro ⟨d, rfl, hp, he⟩
    rw [loadFromCache, if_pos hp, he]

/-- C6: in the semantic pass the cosine division is evaluated only under
both zero-norm guards — a zero-norm chunk vector makes the outer loop skip
that whole chunk, a zero-norm reference vector makes the inner loop skip
that comparison, so neither contributes to the reported maximum — and for
two vectors of nonzero norm the similarity lies in the interval from -1 to
1. -/
theorem C6_zero_norm_guard_and_bound :
    (∀ (m : Str → Except Unit (List ℝ)) (pairs : List (List ℝ × Str)) (c : Str)
      (rest : List Str) (acc : ℝ × Str) (u : List ℝ),
      m c = Except.ok u → pyNorm u = 0 →
      outerLoop m pairs (c :: rest) acc = outerLoop m pairs rest acc) ∧
    (∀ (u pv : List ℝ) (pt : Str) (rest : List (List ℝ × Str)) (acc : ℝ × Str),
      pyNorm pv = 0 → innerLoop u ((pv, pt) :: rest) acc = innerLoop u rest acc) ∧
    (∀ a b : List ℝ, pyNorm a ≠ 0 → pyNorm b ≠ 0 →
      -1 ≤ cosineSim a b ∧ cosineSim a b ≤ 1) :=
  ⟨outerLoop_skip, innerLoop_skip, cosine_bound⟩

/-- C6 witness: the guards and the bound at concrete vectors — the
zero-vector model makes the outer loop skip its chunk, a zero reference
vector is skipped by the inner loop, and the two unit vectors have
similarity within the interval. -/
theorem C6_zero_norm_guard_and_bound_witness :
    outerLoop mZero [] [("x").toList] (0, []) = outerLoop mZero [] [] (0, []) ∧
    innerLoop [(1 : ℝ)] [([(0 : ℝ)], [])] (0, []) = innerLoop [(1 : ℝ)] [] (0, []) ∧
    (-1 ≤ cosineSim [(1 : ℝ)] [(1 : ℝ)] ∧ cosineSim [(1 : ℝ)] [(1 : ℝ)] ≤ 1) :=
  ⟨C6_zero_norm_guard_and_bound.1 mZero [] (("x").toList) [] (0, []) [0] rfl pyNorm_zeroVec,
   C6_zero_norm_guard_and_bound.2.1 [(1 : ℝ)] [(0 : ℝ)] [] [] (0, []) pyNorm_zeroVec,
   C6_zero_norm_guard_and_bound.2.2 [(1 : ℝ)] [(1 : ℝ)]
     (by rw [pyNorm_one]; norm_num) (by rw [pyNorm_one]; norm_num)⟩

/-- C7: for every call, the reason component of the result of detect is
empty exactly when the crisis flag is false, and a true flag always comes
with one of the two fixed non-empty reason strings. -/
theorem C7_reason_empty_iff_not_crisis :
    ∀ (m : Option (Str → Except Unit (List ℝ))) (pes : List (List ℝ)) (text : Str),
      ((detect m pes text).1 = false ↔ (detect m pes text).2 = []) ∧
      ((detect m pes text).1 = true →
        (detect m pes text).2 = lexicalReason ∨ (detect m pes text).2 = semanticReason) := by
  intro m pes text
  rcases detect_cases m pes text with h | h | h <;> rw [h]
  · exact ⟨by decide, fun _ => Or.inl rfl⟩
  · exact ⟨by decide, fun _ => Or.inr rfl⟩
  · exact ⟨by decide, fun hh => absurd hh (by decide)⟩

/-- C7 witness: at a concrete crisis input the true flag carries one of the
two fixed reasons, discharged through the theorem. -/
theorem C7_reason_empty_iff_not_crisis_witness :
    (detect none [] (("I want to kill myself").toList)).2 = lexicalReason ∨
    (detect none [] (("I want to kill myself").toList)).2 = semanticReason :=
  (C7_reason_empty_iff_not_crisis none [] (("I want to kill myself").toList)).2 rfl

lemma chunkText_short (text : Str) (window step : ℕ)
    (h : (pyWords text).length ≤ window) : chunkText text window step = [text] := by
  simp only [chunkText]
  rw [if_pos h]

/-- C9: when the whitespace-separated word count of the text is at most the
window size, _chunk_text returns exactly one chunk and it is the original
text unchanged. -/
theorem C9_short_text_single_chunk :
    ∀ (text : Str) (window step : ℕ),
      (pyWords text).length ≤ window → chunkText text window step = [text] := by
  intro text window step h
  exact chunkText_short text window step h

/-- C9 witness: a two-word text under the default window 15. -/
theorem C9_short_text_single_chunk_witness :
    chunkText (("hello world").toList) 15 10 = [("hello world").toList] :=
  C9_short_text_single_chunk (("hello world").toList) 15 10 (by decide)

/-- C10: for window at least step and step at least one, every
whitespace-separated word of the input occurs as a word of at least one
chunk produced by _chunk_text: the chunk offsets advance by step and the
loop only stops after a chunk whose window reaches the last word, so no
suffix is left uncovered. -/
theorem C10_every_word_in_some_chunk :
    ∀ (text : Str) (window step : ℕ), 1 ≤ step → step ≤ window →
    ∀ (j : ℕ) (h : j < (pyWords text).length),
    ∃ c ∈ chunkText text window step, (pyWords text).get ⟨j, h⟩ ∈ pyWords c := by
  intro text window step hstep hsw j h
  by_cases hlen : (pyWords text).length ≤ window
  · refine ⟨text, ?_, List.get_mem _ _ _⟩
    rw [chunkText_short text window step hlen]
    exact List.mem_singleton.mpr rfl
  · have hck : chunkText text window step =
        chunkLoopFuel (pyWords text) window step (pyWords text).length 0 := by
      simp only [chunkText]
      rw [if_neg hlen]
    rw [hck]
    exact chunkLoop_coverage (pyWords text) window step hstep hsw (pyWords_sound text)
      (pyWords text).length 0 j h (Nat.zero_le j) (by omega)

/-- C10 witness: the word at index 2 of a three-word text is covered under
window 2, step 1, where the loop emits two chunks. -/
theorem C10_every_word_in_some_chunk_witness :
    ∃ c ∈ chunkText (("a b c").toList) 2 1,
      (pyWords (("a b c").toList)).get ⟨2, by decide⟩ ∈ pyWords c :=
  C10_every_word_in_some_chunk (("a b c").toList) 2 1 (by decide) (by decide) 2 (by decide)

end CuraBot
